import Mathlib

/-!
Shallow embedding of the master side of the wazuh cluster synchronization
protocol (framework/wazuh/core/cluster/master.py) and proofs about it.

The embedding models the per-worker session state (the two sync-availability
booleans and the extra-valid flag), the command handlers of `MasterHandler`
(`get_permission`, `setup_sync_integrity`, `process_sync_error_from_worker`,
`process_dapi_res`, `execute`, `connection_lost`), the per-chunk loop of
`sync_wazuh_db_info`, the empty-bucket decision of `sync_integrity`, the
merged-member skip logic of `process_files_from_worker.update_file`, and
`Master.get_health`.
-/

namespace Wazuh.Master

/-- Per-session sync state of a `MasterHandler`:
`self.sync_integrity_free`, `self.sync_agent_info_free` and
`self.extra_valid_requested`, initialized in `MasterHandler.__init__`. -/
structure SessionState where
  sync_integrity_free : Bool
  sync_agent_info_free : Bool
  extra_valid_requested : Bool
deriving DecidableEq, Repr

/-- Initial session state set by `MasterHandler.__init__`:
both slots free, no extra-valid requested. -/
def initSession : SessionState :=
  { sync_integrity_free := true, sync_agent_info_free := true, extra_valid_requested := false }

/-- Kind of receive task allocated by `setup_sync_integrity`
(classes `ReceiveIntegrityTask`, `ReceiveExtraValidTask`, `ReceiveAgentInfoTask`). -/
inductive SyncTaskKind where
  | receiveIntegrityTask
  | receiveExtraValidTask
  | receiveAgentInfoTask
deriving DecidableEq, Repr

/-- `MasterHandler.setup_sync_integrity(sync_type, data)`: the slot updates and
the task class chosen for each begin-receive command.
Source: `syn_i_w_m` sets `sync_integrity_free = False` and picks
`ReceiveIntegrityTask`; `syn_e_w_m` only picks `ReceiveExtraValidTask` (no slot
write); `syn_a_w_m` sets `sync_agent_info_free = False` and picks
`ReceiveAgentInfoTask`; any other command picks no task. The trailing
`super().setup_receive_file(sync_function, data)` call allocates the task and
returns the task-id; it does not touch the slots. -/
def setup_sync_integrity (s : SessionState) (sync_type : String) :
    SessionState × Option SyncTaskKind :=
  if sync_type = "syn_i_w_m" then
    ({ s with sync_integrity_free := false }, some .receiveIntegrityTask)
  else if sync_type = "syn_e_w_m" then
    (s, some .receiveExtraValidTask)
  else if sync_type = "syn_a_w_m" then
    ({ s with sync_agent_info_free := false }, some .receiveAgentInfoTask)
  else
    (s, none)

/-- `MasterHandler.process_sync_error_from_worker(error_msg)` (command
`syn_i_w_m_r`): sets `sync_integrity_free = True`; `extra_valid_requested` and
`sync_agent_info_free` are not touched. -/
def process_sync_error_from_worker (s : SessionState) : SessionState :=
  { s with sync_integrity_free := true }

/-- `ReceiveIntegrityTask.done_callback`: frees the integrity slot only when the
master is not waiting for extra-valid files. -/
def receiveIntegrityTask_done_callback (s : SessionState) : SessionState :=
  if s.extra_valid_requested then s else { s with sync_integrity_free := true }

/-- `ReceiveExtraValidTask.done_callback`: clears `extra_valid_requested` and
frees the integrity slot. -/
def receiveExtraValidTask_done_callback (s : SessionState) : SessionState :=
  { s with extra_valid_requested := false, sync_integrity_free := true }

/-- `ReceiveAgentInfoTask.done_callback`: frees the agent-info slot. -/
def receiveAgentInfoTask_done_callback (s : SessionState) : SessionState :=
  { s with sync_agent_info_free := true }

/-- A handler operation affecting the session's slot state. `integrityDiff b`
is the point in `sync_integrity` where the diff result is published:
`self.extra_valid_requested = bool(worker_files_ko['extra_valid'])`, with `b`
the emptiness of the extra-valid bucket. -/
inductive HOp where
  | setupIntegrity
  | setupExtraValid
  | setupAgentInfo
  | syncError
  | integrityDiff (extraValidNonempty : Bool)
  | integrityDone
  | extraValidDone
  | agentInfoDone
deriving DecidableEq, Repr

/-- Effect of one handler operation on the session slot state, each case
translated from the corresponding source function. -/
def applyOp (s : SessionState) : HOp → SessionState
  | .setupIntegrity => (setup_sync_integrity s "syn_i_w_m").1
  | .setupExtraValid => (setup_sync_integrity s "syn_e_w_m").1
  | .setupAgentInfo => (setup_sync_integrity s "syn_a_w_m").1
  | .syncError => process_sync_error_from_worker s
  | .integrityDiff b => { s with extra_valid_requested := b }
  | .integrityDone => receiveIntegrityTask_done_callback s
  | .extraValidDone => receiveExtraValidTask_done_callback s
  | .agentInfoDone => receiveAgentInfoTask_done_callback s

/-- State after running a sequence of handler operations. -/
def runOps (s : SessionState) (ops : List HOp) : SessionState :=
  ops.foldl applyOp s

/-- The claimed slot invariant: `extra_valid_requested = true` implies
`sync_integrity_free = false`. -/
def slotInvariant (s : SessionState) : Prop :=
  s.extra_valid_requested = true → s.sync_integrity_free = false

instance (s : SessionState) : Decidable (slotInvariant s) := by
  unfold slotInvariant; infer_instance

/-- Admissibility guard for one operation in a state: a diff step must run
while the integrity slot is held (`sync_integrity_free = false`), and a
worker-reported sync error must not be processed while
`extra_valid_requested = true`. -/
def opGuard (s : SessionState) : HOp → Bool
  | .syncError => !s.extra_valid_requested
  | .integrityDiff _ => !s.sync_integrity_free
  | _ => true

/-- Boolean trace admissibility built from `opGuard`. -/
def okTrace : SessionState → List HOp → Bool
  | _, [] => true
  | s, op :: ops => opGuard s op && okTrace (applyOp s op) ops

/-- Python `str(permission)` for a boolean. -/
def strBool (b : Bool) : String :=
  if b then "True" else "False"

/-- Context read by `MasterHandler.get_permission`: the session name and slot
values, plus the server-wide `integrity_already_executed` list. -/
structure PermissionCtx where
  name : String
  integrity_already_executed : List String
  sync_integrity_free : Bool
  sync_agent_info_free : Bool
deriving DecidableEq, Repr

/-- `MasterHandler.get_permission(sync_type)`: returns the new
`integrity_already_executed` list and the response payload (`str(permission)`).
Source: an integrity probe whose session name is not yet in
`integrity_already_executed` appends the name and answers with
`sync_integrity_free`; an agent-info probe answers with `sync_agent_info_free`;
anything else (in particular a repeated integrity probe in the same cycle)
answers `False`. -/
def get_permission (ctx : PermissionCtx) (sync_type : String) :
    List String × String :=
  if sync_type = "syn_i_w_m_p" ∧ ctx.name ∉ ctx.integrity_already_executed then
    (ctx.integrity_already_executed ++ [ctx.name], strBool ctx.sync_integrity_free)
  else if sync_type = "syn_a_w_m_p" then
    (ctx.integrity_already_executed, strBool ctx.sync_agent_info_free)
  else
    (ctx.integrity_already_executed, strBool false)

/-- The four-bucket classification produced by `compare_files`
(`worker_files_ko`); only the file lists matter here. -/
structure KoFiles where
  missing : List String
  shared : List String
  extra : List String
  extra_valid : List String
deriving DecidableEq, Repr

/-- `functools.reduce(operator.add, map(len, worker_files_ko.values()))`:
the total number of files requiring some change. -/
def KoFiles.total (ko : KoFiles) : Nat :=
  ko.missing.length + ko.shared.length + ko.extra.length + ko.extra_valid.length

/-- Observable outcome of one `sync_integrity` round after the diff. -/
structure IntegrityOutcome where
  sent_command : String
  sent_payload : String
  archive_built : Bool
  extra_valid_requested : Bool
  check_status_end_set : Bool
deriving DecidableEq, Repr

/-- Decision part of `MasterHandler.sync_integrity` after `compare_files`.
Source order: `self.extra_valid_requested = bool(worker_files_ko['extra_valid'])`,
then `integrity_check_status` is updated with start and end timestamps, then
if the total over the four buckets is zero, `syn_m_c_ok` is sent with empty
payload and no archive is compressed; otherwise `compress_files` builds the
archive and the push session starts with `syn_m_c`. -/
def sync_integrity_decision (ko : KoFiles) : IntegrityOutcome :=
  let evr := !ko.extra_valid.isEmpty
  if ko.total = 0 then
    { sent_command := "syn_m_c_ok", sent_payload := "", archive_built := false,
      extra_valid_requested := evr, check_status_end_set := true }
  else
    { sent_command := "syn_m_c", sent_payload := "", archive_built := true,
      extra_valid_requested := evr, check_status_end_set := true }

/-- What happens when one agent-info chunk is sent to wazuh-db:
either a raw response (a list whose first element is inspected) or an
exception raised during the send. -/
inductive ChunkResult where
  | resp (r : List String)
  | exc (msg : String)
deriving DecidableEq, Repr

/-- An entry of `result['error_messages']`: either a non-ok raw response
appended as-is, or the stringified exception. -/
inductive ErrEntry where
  | respErr (r : List String)
  | excMsg (msg : String)
deriving DecidableEq, Repr

/-- The `result` dictionary of `sync_wazuh_db_info`. -/
structure AgentInfoResult where
  updated_chunks : Nat
  error_messages : List ErrEntry
deriving DecidableEq, Repr

/-- One iteration of the chunk loop in `sync_wazuh_db_info`.
Source: `response[0] != 'ok'` appends the response to `error_messages`,
otherwise `updated_chunks` is incremented; any exception (including the
IndexError that `response[0]` raises on an empty response) is caught and its
message appended. -/
def processChunk (res : AgentInfoResult) : ChunkResult → AgentInfoResult
  | .resp [] =>
    { res with error_messages := res.error_messages ++ [.excMsg "string index out of range"] }
  | .resp (h :: t) =>
    if h = "ok" then { res with updated_chunks := res.updated_chunks + 1 }
    else { res with error_messages := res.error_messages ++ [.respErr (h :: t)] }
  | .exc m =>
    { res with error_messages := res.error_messages ++ [.excMsg m] }

/-- Chunk-processing part of `MasterHandler.sync_wazuh_db_info`: the loop over
`data['chunks']` starting from `{'updated_chunks': 0, 'error_messages': []}`,
followed by `send_request(command=b'syn_m_a_e', data=json.dumps(result))`.
Returns the final result together with the command used to send it. -/
def sync_wazuh_db_info (chunks : List ChunkResult) : AgentInfoResult × String :=
  (chunks.foldl processChunk { updated_chunks := 0, error_messages := [] }, "syn_m_a_e")

/-- Whether a chunk counts as updated (`response[0] == 'ok'`). -/
def chunkOk : ChunkResult → Bool
  | .resp (h :: _) => h = "ok"
  | .resp [] => false
  | .exc _ => false

/-- The error-messages entry a chunk contributes, if any. -/
def chunkErr : ChunkResult → Option ErrEntry
  | .resp [] => some (.excMsg "string index out of range")
  | .resp (h :: t) => if h = "ok" then none else some (.respErr (h :: t))
  | .exc m => some (.excMsg m)

/-- A modification time as seen by `update_file`: whole seconds (UTC) plus
microseconds. `datetime.strptime` of the member's `file_time` yields both
parts; `datetime.utcfromtimestamp(int(st_mtime))` of the destination always
has zero microseconds. Comparison of Python datetimes is lexicographic. -/
structure Mtime where
  sec : Int
  usec : Nat
deriving DecidableEq, Repr

/-- Strict datetime comparison `a > b`. -/
def Mtime.gt (a b : Mtime) : Bool :=
  a.sec > b.sec || (a.sec = b.sec && a.usec > b.usec)

/-- One member of a merged extra-valid file, as far as the skip decision in
`update_file` is concerned. -/
structure MemberInfo where
  agentExists : Bool
  destExists : Bool
  destMtimeSec : Int
  parsedMtime : Mtime
deriving DecidableEq, Repr

/-- Action `update_file` takes on one merged-file member. -/
inductive MemberAction where
  | skipNonexistentAgent
  | skipOld
  | write
deriving DecidableEq, Repr

/-- Merged-member decision of `process_files_from_worker.update_file`.
Source: if the agent id is unknown, count a warning and `continue`; else if
the destination exists and
`datetime.utcfromtimestamp(int(os.stat(dest).st_mtime)) > mtime` (strict),
log "Receiving an old file" and `continue`; otherwise write the member and
safe-move it into place. -/
def update_file_member (m : MemberInfo) : MemberAction :=
  if !m.agentExists then .skipNonexistentAgent
  else if m.destExists && Mtime.gt { sec := m.destMtimeSec, usec := 0 } m.parsedMtime then
    .skipOld
  else .write

/-- An entry of `self.server.pending_api_requests`:
`{'Event': asyncio.Event(), 'Response': ''}`. `signaled` models the event. -/
structure PendingEntry where
  response : String
  signaled : Bool
deriving DecidableEq, Repr

/-- The pending-request table, keyed by request-id. -/
abbrev PendingTable := List (String × PendingEntry)

/-- Splitting a character list at the first space, keeping the remainder. -/
def split1List : List Char → List Char × List Char
  | [] => ([], [])
  | c :: rest =>
    if c = ' ' then ([], rest)
    else
      let p := split1List rest
      (c :: p.1, p.2)

/-- Python `data.split(' ', 1)`: the part before the first space and the
remainder after it. -/
def split1 (s : String) : String × String :=
  let p := split1List s.toList
  (String.mk p.1, String.mk p.2)

/-- Master-side state read and written by `process_dapi_res`. -/
structure MasterState where
  pending_api_requests : PendingTable
  in_str : List (String × String)
  local_clients : List String
deriving DecidableEq, Repr

/-- Side action of a successful `process_dapi_res`. -/
inductive DapiResAction where
  | signalWaiter
  | forwardToLocalClient
deriving DecidableEq, Repr

/-- Errors `process_dapi_res` can raise. -/
inductive DapiResError where
  | unknownRequestId (req_id : String)
  | missingString (string_id : String)
deriving DecidableEq, Repr

/-- `MasterHandler.process_dapi_res(data)`: splits `data` as
`"<request-id> <string-id>"`. If the request-id is in
`pending_api_requests`, stores `in_str[string_id].payload` as the entry's
Response, sets its Event, pops the string from `in_str`, and returns
`(ok, Forwarded response)`. Else, if the request-id is a connected
local-server client, schedules `forward_dapi_response` and returns
`(ok, Response forwarded to worker)`. Else raises `WazuhClusterError(3032)`
with the request-id. Accessing a missing string raises (KeyError),
modelled as `missingString`. -/
def process_dapi_res (st : MasterState) (data : String) :
    Except DapiResError (MasterState × DapiResAction × String) :=
  let req_id := (split1 data).1
  let string_id := (split1 data).2
  if (st.pending_api_requests.lookup req_id).isSome then
    match st.in_str.lookup string_id with
    | some payload =>
      .ok ({ st with
              pending_api_requests := st.pending_api_requests.map
                (fun p => if p.1 = req_id then (p.1, { response := payload, signaled := true }) else p),
              in_str := st.in_str.filter (fun p => p.1 ≠ string_id) },
           .signalWaiter, "Forwarded response")
    | none => .error (.missingString string_id)
  else if req_id ∈ st.local_clients then
    .ok (st, .forwardToLocalClient, "Response forwarded to worker")
  else
    .error (.unknownRequestId req_id)

/-- Result of the DAPI wait in `MasterHandler.execute`. -/
inductive ExecResult where
  | success (resp : String)
  | dapiTimeout
deriving DecidableEq, Repr

/-- Table-manipulation skeleton of `MasterHandler.execute` for `command = dapi`
or `dapi_fwd`: a fresh entry `{'Event': Event(), 'Response': ''}` is inserted
under the new request-id, the request is sent on the link, and the handler
waits on the event. If a `dapi_res` for this request-id arrives in time
(`arrival = some payload`, the store/signal being performed by
`process_dapi_res` while `execute` waits), the entry's Response is returned;
otherwise `asyncio.TimeoutError` becomes `WazuhClusterError(3021)`. No branch
deletes the entry from `pending_api_requests`. -/
def execute_dapi (table : PendingTable) (request_id : String)
    (arrival : Option String) : PendingTable × ExecResult :=
  let table1 : PendingTable := (request_id, { response := "", signaled := false }) :: table
  match arrival with
  | some payload =>
    (table1.map (fun p => if p.1 = request_id then (p.1, { response := payload, signaled := true }) else p),
     .success payload)
  | none => (table1, .dapiTimeout)

/-- `Master.get_health(filter_node)`, restricted to which node names appear in
the returned document. The worker registry is given by the connected client
names; `filter` is `None` or the collection of names in `filter_node`.
Source: `workers_info = {k: v for k, v in clients if filter_node is None or
filter_node == {} or k in filter_node}`; `n_connected_nodes` is its size; then
`if filter_node is None or node_name in filter_node`, the master's own entry is
added (dict update: replaces an existing key). -/
def get_health (clients : List String) (master_name : String)
    (filter : Option (List String)) : Nat × List String :=
  let workers_info :=
    match filter with
    | none => clients
    | some f => if f = [] then clients else clients.filter (fun k => k ∈ f)
  let n_connected_nodes := workers_info.length
  let addMaster :=
    match filter with
    | none => true
    | some f => decide (master_name ∈ f)
  (n_connected_nodes,
   if addMaster then workers_info.filter (fun k => k ≠ master_name) ++ [master_name]
   else workers_info)

/-- A pending receive task as held in `self.sync_tasks`; only the cancellation
flag of its asyncio task matters here. -/
structure STask where
  cancelled : Bool
deriving DecidableEq, Repr

/-- A session together with its task map (`self.sync_tasks`). -/
structure FullSession where
  sync_integrity_free : Bool
  sync_agent_info_free : Bool
  extra_valid_requested : Bool
  sync_tasks : List (String × STask)
deriving DecidableEq, Repr

/-- `MasterHandler.connection_lost(exc)`: after the base-class cleanup
(`super().connection_lost`, which manages the client registry and does not
touch the `MasterHandler` sync fields), every pending task in `sync_tasks`
is cancelled. No slot field is written. -/
def connection_lost (s : FullSession) : FullSession :=
  { s with sync_tasks := s.sync_tasks.map (fun p => (p.1, { cancelled := true })) }

/-! ## Theorems -/

/-- C1 counterexample: processing `syn_e_w_m` does not take the integrity
slot. From the initial session state (slot free), `setup_sync_integrity`
allocates a `ReceiveExtraValidTask` but leaves `sync_integrity_free = true`,
contradicting the claim that `syn_e_w_m` sets integrity-free to false. -/
theorem C1_counterexample :
    (setup_sync_integrity initSession "syn_e_w_m").1.sync_integrity_free = true ∧
    (setup_sync_integrity initSession "syn_e_w_m").2 = some .receiveExtraValidTask := by
  decide

/-- C1 (amended): `syn_i_w_m` sets `sync_integrity_free` to false and
allocates a `ReceiveIntegrityTask`; `syn_a_w_m` sets `sync_agent_info_free`
to false, leaves `sync_integrity_free` unchanged and allocates a
`ReceiveAgentInfoTask`; `syn_e_w_m` leaves both slots unchanged and allocates
a `ReceiveExtraValidTask`. -/
theorem C1_setup_sync_integrity_slots (s : SessionState) :
    (setup_sync_integrity s "syn_i_w_m").1.sync_integrity_free = false ∧
    (setup_sync_integrity s "syn_i_w_m").1.sync_agent_info_free = s.sync_agent_info_free ∧
    (setup_sync_integrity s "syn_i_w_m").2 = some .receiveIntegrityTask ∧
    (setup_sync_integrity s "syn_e_w_m").1 = s ∧
    (setup_sync_integrity s "syn_e_w_m").2 = some .receiveExtraValidTask ∧
    (setup_sync_integrity s "syn_a_w_m").1.sync_agent_info_free = false ∧
    (setup_sync_integrity s "syn_a_w_m").1.sync_integrity_free = s.sync_integrity_free ∧
    (setup_sync_integrity s "syn_a_w_m").2 = some .receiveAgentInfoTask := by
  simp [setup_sync_integrity]

/-- Helper for C2: one admissible step preserves the slot invariant. -/
theorem applyOp_preserves_slotInvariant (s : SessionState) (op : HOp)
    (hs : slotInvariant s) (hguard : opGuard s op = true) :
    slotInvariant (applyOp s op) := by
  cases op <;>
    simp_all [applyOp, slotInvariant, opGuard, setup_sync_integrity,
      process_sync_error_from_worker, receiveIntegrityTask_done_callback,
      receiveExtraValidTask_done_callback, receiveAgentInfoTask_done_callback]
  case integrityDone =>
    by_cases h : s.extra_valid_requested = true <;> simp_all

/-- Helper for C2: the slot invariant is preserved along any admissible
trace. -/
theorem runOps_preserves_slotInvariant (ops : List HOp) (s : SessionState)
    (hs : slotInvariant s) (hok : okTrace s ops = true) :
    slotInvariant (runOps s ops) := by
  induction ops generalizing s with
  | nil => exact hs
  | cons op ops ih =>
    rw [okTrace, Bool.and_eq_true] at hok
    exact ih (applyOp s op) (applyOp_preserves_slotInvariant s op hs hok.1) hok.2

/-- C2 counterexample: the invariant fails on the code as claimed. The
reachable sequence `syn_i_w_m`, then the integrity diff reporting a non-empty
extra-valid bucket, then the worker-reported sync error `syn_i_w_m_r` leaves
`extra_valid_requested = true` while `sync_integrity_free = true`, because
`process_sync_error_from_worker` frees the integrity slot without clearing
`extra_valid_requested`. -/
theorem C2_counterexample :
    ¬ (∀ ops : List HOp, slotInvariant (runOps initSession ops)) := fun h =>
  absurd (h [.setupIntegrity, .integrityDiff true, .syncError]) (by decide)

/-- C2 (amended): the invariant `extra_valid_requested = true →
sync_integrity_free = false` holds in every state reached from the initial
session state by a sequence of handler operations in which each integrity
diff runs while the integrity slot is held and no worker-reported sync error
(`syn_i_w_m_r`) is processed while `extra_valid_requested` is true. -/
theorem C2_slot_invariant (ops : List HOp) (hok : okTrace initSession ops = true) :
    slotInvariant (runOps initSession ops) :=
  runOps_preserves_slotInvariant ops initSession (by decide) hok

/-- C2 witness: a concrete admissible trace covering a full integrity plus
extra-valid round, on which the invariant holds. -/
theorem C2_slot_invariant_witness :
    okTrace initSession
      [.setupIntegrity, .integrityDiff true, .setupExtraValid, .extraValidDone,
       .integrityDone] = true ∧
    slotInvariant (runOps initSession
      [.setupIntegrity, .integrityDiff true, .setupExtraValid, .extraValidDone,
       .integrityDone]) :=
  ⟨by decide, C2_slot_invariant _ (by decide)⟩

/-- C3: the first integrity probe of a cycle (session name not yet in
`integrity_already_executed`) appends the name and answers with the current
value of `sync_integrity_free` rendered as `"True"`/`"False"`; a repeated
integrity probe (name already present) leaves the set unchanged and answers
`"False"` regardless of the slot; an agent-info probe always answers with the
current value of `sync_agent_info_free` and never touches the set. -/
theorem C3_get_permission (ctx : PermissionCtx) :
    (ctx.name ∉ ctx.integrity_already_executed →
      get_permission ctx "syn_i_w_m_p" =
        (ctx.integrity_already_executed ++ [ctx.name], strBool ctx.sync_integrity_free)) ∧
    (ctx.name ∈ ctx.integrity_already_executed →
      get_permission ctx "syn_i_w_m_p" = (ctx.integrity_already_executed, "False")) ∧
    get_permission ctx "syn_a_w_m_p" =
      (ctx.integrity_already_executed, strBool ctx.sync_agent_info_free) := by
  refine ⟨fun hnot => ?_, fun hmem => ?_, ?_⟩ <;>
    simp_all [get_permission, strBool]

/-- C3 witness: concrete probes. First integrity probe of worker `W1` with a
free slot answers `"True"` and records `W1`; the repeated probe answers
`"False"` even though the slot is free; the agent-info probe reports a busy
agent-info slot as `"False"` with the set untouched. -/
theorem C3_get_permission_witness :
    get_permission ⟨"W1", [], true, true⟩ "syn_i_w_m_p" = (["W1"], "True") ∧
    get_permission ⟨"W1", ["W1"], true, true⟩ "syn_i_w_m_p" = (["W1"], "False") ∧
    get_permission ⟨"W1", ["W1"], true, false⟩ "syn_a_w_m_p" = (["W1"], "False") :=
  ⟨(C3_get_permission ⟨"W1", [], true, true⟩).1 (by decide),
   (C3_get_permission ⟨"W1", ["W1"], true, true⟩).2.1 (by decide),
   (C3_get_permission ⟨"W1", ["W1"], true, false⟩).2.2⟩

/-- C4 counterexample: a merged member whose destination mtime equals the
parsed mtime (100 s, 0 µs on both sides) is not skipped: `update_file` writes
it, because the source compares with a strict `>`. This refutes the claim that
members are skipped whenever destination mtime is greater than or equal to the
parsed mtime. -/
theorem C4_counterexample :
    ({ sec := 100, usec := 0 } : Mtime) = ({ sec := 100, usec := 0 } : Mtime) ∧
    update_file_member
      { agentExists := true, destExists := true, destMtimeSec := 100,
        parsedMtime := { sec := 100, usec := 0 } } = .write := by
  decide

/-- C4 (amended): for a member of an existing agent, `update_file` skips the
member as old exactly when the destination exists and its on-disk mtime
(integer seconds, zero microseconds) is strictly greater than the member's
parsed mtime; on equality the member is written. -/
theorem C4_update_file_skip_strict (m : MemberInfo) (hag : m.agentExists = true) :
    update_file_member m = .skipOld ↔
      m.destExists = true ∧
        Mtime.gt { sec := m.destMtimeSec, usec := 0 } m.parsedMtime = true := by
  simp [update_file_member, hag]

/-- C4 witness: with the destination one second newer (101 s vs 100 s) the
member is skipped as old. -/
theorem C4_update_file_skip_strict_witness :
    update_file_member
      { agentExists := true, destExists := true, destMtimeSec := 101,
        parsedMtime := { sec := 100, usec := 0 } } = .skipOld :=
  (C4_update_file_skip_strict
    { agentExists := true, destExists := true, destMtimeSec := 101,
      parsedMtime := { sec := 100, usec := 0 } } (by decide)).mpr (by decide)

/-- C5: when the diff leaves all four buckets empty, `sync_integrity` sends
`syn_m_c_ok` with an empty payload, records the integrity-check end
timestamp, builds no archive, and leaves `extra_valid_requested` false. -/
theorem C5_sync_integrity_empty (ko : KoFiles)
    (h : ko.missing = [] ∧ ko.shared = [] ∧ ko.extra = [] ∧ ko.extra_valid = []) :
    sync_integrity_decision ko =
      { sent_command := "syn_m_c_ok", sent_payload := "", archive_built := false,
        extra_valid_requested := false, check_status_end_set := true } := by
  obtain ⟨h1, h2, h3, h4⟩ := h
  simp [sync_integrity_decision, KoFiles.total, h1, h2, h3, h4]

/-- C5 witness: the empty classification. -/
theorem C5_sync_integrity_empty_witness :
    sync_integrity_decision { missing := [], shared := [], extra := [], extra_valid := [] } =
      { sent_command := "syn_m_c_ok", sent_payload := "", archive_built := false,
        extra_valid_requested := false, check_status_end_set := true } :=
  C5_sync_integrity_empty
    { missing := [], shared := [], extra := [], extra_valid := [] }
    ⟨rfl, rfl, rfl, rfl⟩

/-- Helper for C6: the chunk loop, started from any accumulator, adds the
count of ok chunks to `updated_chunks` and appends the error entries of the
failing chunks, in order. -/
theorem processChunk_foldl (chunks : List ChunkResult) (acc : AgentInfoResult) :
    chunks.foldl processChunk acc =
      { updated_chunks := acc.updated_chunks + (chunks.filter chunkOk).length,
        error_messages := acc.error_messages ++ chunks.filterMap chunkErr } := by
  induction chunks generalizing acc with
  | nil => simp
  | cons c rest ih =>
    match c with
    | .resp [] => simp [processChunk, chunkOk, chunkErr, ih]
    | .resp (h :: t) =>
      by_cases hok : h = "ok" <;>
        simp [processChunk, chunkOk, chunkErr, hok, ih, Nat.add_assoc, Nat.add_comm 1]
    | .exc m => simp [processChunk, chunkOk, chunkErr, ih]

/-- C6: `sync_wazuh_db_info` processes every chunk without aborting:
`updated_chunks` is the number of chunks whose response starts with `"ok"`,
`error_messages` collects, in order, each non-ok response and each exception
message, and the result is sent to the worker with `syn_m_a_e`; in particular
an empty chunk list yields `updated_chunks = 0`, no error messages, and the
acknowledgment is still sent. -/
theorem C6_sync_wazuh_db_info (chunks : List ChunkResult) :
    (sync_wazuh_db_info chunks).1.updated_chunks = (chunks.filter chunkOk).length ∧
    (sync_wazuh_db_info chunks).1.error_messages = chunks.filterMap chunkErr ∧
    (sync_wazuh_db_info chunks).2 = "syn_m_a_e" ∧
    sync_wazuh_db_info [] = ({ updated_chunks := 0, error_messages := [] }, "syn_m_a_e") := by
  refine ⟨?_, ?_, rfl, rfl⟩ <;>
    simp [sync_wazuh_db_info, processChunk_foldl]

/-- Helper: association-list lookup at the head key. -/
theorem lookup_cons_self {β : Type} (a : String) (b : β) (l : List (String × β)) :
    List.lookup a ((a, b) :: l) = some b := by
  rw [List.lookup]
  have hbeq : (a == a) = true := beq_self_eq_true a
  rw [hbeq]

/-- Helper: association-list lookup skips a head with a different key. -/
theorem lookup_cons_ne {β : Type} (a k : String) (b : β) (l : List (String × β))
    (h : k ≠ a) :
    List.lookup k ((a, b) :: l) = List.lookup k l := by
  rw [List.lookup]
  have hbeq : (k == a) = false := beq_eq_false_iff_ne.mpr h
  rw [hbeq]

/-- Helper: updating the entry under key `k` of an association list (the way a
Python dict assignment updates the key) makes a lookup of `k` return the new
entry, provided `k` was present. -/
theorem lookup_map_update (l : PendingTable) (k : String) (e : PendingEntry)
    (h : (l.lookup k).isSome = true) :
    (l.map (fun p => if p.1 = k then (p.1, e) else p)).lookup k = some e := by
  induction l with
  | nil => simp [List.lookup] at h
  | cons p rest ih =>
    obtain ⟨a, b⟩ := p
    rw [List.map_cons]
    by_cases hak : a = k
    · subst hak
      have hhead : (if (a, b).1 = a then ((a, b).1, e) else (a, b)) = (a, e) := if_pos rfl
      rw [hhead]
      exact lookup_cons_self a e _
    · have hhead : (if (a, b).1 = k then ((a, b).1, e) else (a, b)) = (a, b) := if_neg hak
      rw [hhead, lookup_cons_ne a k b _ (Ne.symm hak)]
      rw [lookup_cons_ne a k b rest (Ne.symm hak)] at h
      exact ih h

/-- Helper: after removing every pair with key `k`, lookup of `k` fails. -/
theorem lookup_filter_ne (l : List (String × String)) (k : String) :
    (l.filter (fun p => p.1 ≠ k)).lookup k = none := by
  induction l with
  | nil => rfl
  | cons p rest ih =>
    obtain ⟨a, b⟩ := p
    rw [List.filter_cons]
    by_cases hak : a = k
    · have hc : (decide ((a, b).1 ≠ k)) = false := by
        simp [hak]
      rw [hc]
      simpa using ih
    · have hc : (decide ((a, b).1 ≠ k)) = true := by
        simp [hak]
      rw [hc]
      simp only [if_true]
      rw [lookup_cons_ne a k b _ (Ne.symm hak)]
      exact ih

/-- C7 counterexample: after a DAPI round-trip through `execute`, the
pending-request entry is still in the table, both when the round-trip
succeeds and when it times out, contradicting the claim that the caller
removes it. -/
theorem C7_counterexample :
    (execute_dapi [] "r1" (some "payload")).2 = .success "payload" ∧
    ((execute_dapi [] "r1" (some "payload")).1.lookup "r1").isSome = true ∧
    (execute_dapi [] "r1" none).2 = .dapiTimeout ∧
    ((execute_dapi [] "r1" none).1.lookup "r1").isSome = true := by
  decide

/-- C7 (amended): `execute` never removes the entry it inserted: after the
round-trip ends, in success and in timeout alike, the fresh request-id is
still present in the pending-request table (the timeout path raises
`WazuhClusterError(3021)` and leaves the entry for the eventual late response
to discard). -/
theorem C7_execute_entry_persists (table : PendingTable) (request_id : String)
    (arrival : Option String) :
    ((execute_dapi table request_id arrival).1.lookup request_id).isSome = true := by
  cases arrival with
  | none =>
    show ((((request_id, { response := "", signaled := false }) :: table) :
        PendingTable).lookup request_id).isSome = true
    rw [lookup_cons_self]
    rfl
  | some payload =>
    show (((((request_id, { response := "", signaled := false }) :: table) : PendingTable).map
        (fun p => if p.1 = request_id then (p.1, { response := payload, signaled := true }) else p)).lookup
        request_id).isSome = true
    rw [lookup_map_update ((request_id, { response := "", signaled := false }) :: table)
      request_id { response := payload, signaled := true } (by rw [lookup_cons_self]; rfl)]
    rfl

/-- C8: `process_dapi_res` splits its input as request-id and string-id and
dispatches three ways. If the request-id is pending, it stores the payload
from the received-string registry as the response, signals the waiter,
removes the string from the registry, and leaves the local-client list alone.
Otherwise, if the request-id names a connected local-API client, it forwards
the response to that client without touching the state. Otherwise it fails
with an unknown-request-id error. -/
theorem C8_process_dapi_res (st : MasterState) (data req_id string_id payload : String)
    (hsplit : split1 data = (req_id, string_id)) :
    ((st.pending_api_requests.lookup req_id).isSome = true →
      st.in_str.lookup string_id = some payload →
      ∃ st2, process_dapi_res st data = .ok (st2, .signalWaiter, "Forwarded response") ∧
        st2.pending_api_requests.lookup req_id =
          some { response := payload, signaled := true } ∧
        st2.in_str.lookup string_id = none ∧
        st2.local_clients = st.local_clients) ∧
    (st.pending_api_requests.lookup req_id = none → req_id ∈ st.local_clients →
      process_dapi_res st data = .ok (st, .forwardToLocalClient, "Response forwarded to worker")) ∧
    (st.pending_api_requests.lookup req_id = none → req_id ∉ st.local_clients →
      process_dapi_res st data = .error (.unknownRequestId req_id)) := by
  have h1 : (split1 data).1 = req_id := by rw [hsplit]
  have h2 : (split1 data).2 = string_id := by rw [hsplit]
  refine ⟨fun hp hstr => ?_, fun hp hmem => ?_, fun hp hmem => ?_⟩
  · refine ⟨{ st with
        pending_api_requests := st.pending_api_requests.map
          (fun p => if p.1 = req_id then (p.1, { response := payload, signaled := true }) else p),
        in_str := st.in_str.filter (fun p => p.1 ≠ string_id) }, ?_, ?_, ?_, rfl⟩
    · simp only [process_dapi_res, h1, h2, hp, hstr, if_true]
    · exact lookup_map_update st.pending_api_requests req_id
        { response := payload, signaled := true } hp
    · exact lookup_filter_ne st.in_str string_id
  · simp [process_dapi_res, h1, h2, hp, hmem]
  · simp [process_dapi_res, h1, h2, hp, hmem]

/-- C8 witness: concrete runs of all three branches. A pending request `r1`
with stored string `s1` is resolved and the string removed; a request-id
naming local client `c1` is forwarded; an unknown request-id `rX` raises the
unknown-request-id error. -/
theorem C8_process_dapi_res_witness :
    (∃ st2, process_dapi_res
        { pending_api_requests := [("r1", { response := "", signaled := false })],
          in_str := [("s1", "hello")], local_clients := ["c1"] } "r1 s1" =
        .ok (st2, .signalWaiter, "Forwarded response") ∧
      st2.pending_api_requests.lookup "r1" = some { response := "hello", signaled := true } ∧
      st2.in_str.lookup "s1" = none ∧
      st2.local_clients = ["c1"]) ∧
    process_dapi_res
        { pending_api_requests := [], in_str := [], local_clients := ["c1"] } "c1 s9" =
      .ok ({ pending_api_requests := [], in_str := [], local_clients := ["c1"] },
        .forwardToLocalClient, "Response forwarded to worker") ∧
    process_dapi_res
        { pending_api_requests := [], in_str := [], local_clients := [] } "rX s9" =
      .error (.unknownRequestId "rX") :=
  ⟨(C8_process_dapi_res
      { pending_api_requests := [("r1", { response := "", signaled := false })],
        in_str := [("s1", "hello")], local_clients := ["c1"] }
      "r1 s1" "r1" "s1" "hello" (by decide)).1 (by decide) (by decide),
   (C8_process_dapi_res
      { pending_api_requests := [], in_str := [], local_clients := ["c1"] }
      "c1 s9" "c1" "s9" "" (by decide)).2.1 rfl (by decide),
   (C8_process_dapi_res
      { pending_api_requests := [], in_str := [], local_clients := [] }
      "rX s9" "rX" "s9" "" (by decide)).2.2 rfl (by decide)⟩

/-- C9 counterexample: with an empty node filter, `get_health` returns all
connected workers but does not add the master's own entry, contradicting the
claim that an empty filter behaves like a missing one. -/
theorem C9_counterexample :
    (get_health ["w1"] "master" (some [])).2 = ["w1"] ∧
    "master" ∉ (get_health ["w1"] "master" (some [])).2 := by
  decide

/-- C9 (amended): with a missing filter (`None`) the health document lists all
connected workers plus the master; with an empty filter it lists all connected
workers without the master; with a non-empty filter it lists exactly the
connected workers named in the filter, plus the master exactly when the
master's name is in the filter. (The master's name is not a worker name.) -/
theorem C9_get_health (clients : List String) (m : String) (f : List String)
    (hm : m ∉ clients) :
    (get_health clients m none).2 = clients ++ [m] ∧
    (get_health clients m (some [])).2 = clients ∧
    (f ≠ [] → (get_health clients m (some f)).2 =
      clients.filter (fun k => k ∈ f) ++ if m ∈ f then [m] else []) := by
  have hfilter : ∀ l : List String, m ∉ l → l.filter (fun k => k ≠ m) = l := by
    intro l hl
    apply List.filter_eq_self.mpr
    intro a ha
    simp only [ne_eq, decide_not, Bool.not_eq_eq_eq_not, Bool.not_true, decide_eq_false_iff_not]
    exact fun heq => hl (heq ▸ ha)
  refine ⟨?_, ?_, fun hf => ?_⟩
  · show clients.filter (fun k => k ≠ m) ++ [m] = clients ++ [m]
    rw [hfilter clients hm]
  · rfl
  · by_cases hmf : m ∈ f
    · have h1 : (get_health clients m (some f)).2 =
          (clients.filter (fun k => k ∈ f)).filter (fun k => k ≠ m) ++ [m] := by
        simp [get_health, if_neg hf, hmf]
      rw [h1, hfilter _ (fun hmem => hm (List.mem_of_mem_filter hmem)), if_pos hmf]
    · have h1 : (get_health clients m (some f)).2 = clients.filter (fun k => k ∈ f) := by
        simp [get_health, if_neg hf, hmf]
      rw [h1, if_neg hmf, List.append_nil]

/-- C9 witness: two connected workers `w1`, `w2` and master `m`. Missing
filter lists both workers plus the master; empty filter lists the workers
only; the filter `[w2, m]` lists `w2` and the master. -/
theorem C9_get_health_witness :
    (get_health ["w1", "w2"] "m" none).2 = ["w1", "w2", "m"] ∧
    (get_health ["w1", "w2"] "m" (some [])).2 = ["w1", "w2"] ∧
    (get_health ["w1", "w2"] "m" (some ["w2", "m"])).2 = ["w2", "m"] :=
  ⟨(C9_get_health ["w1", "w2"] "m" ["w2", "m"] (by decide)).1,
   (C9_get_health ["w1", "w2"] "m" ["w2", "m"] (by decide)).2.1,
   (C9_get_health ["w1", "w2"] "m" ["w2", "m"] (by decide)).2.2 (by decide)⟩

/-- C10: `connection_lost` cancels every pending task in the session's task
map (keys preserved) and leaves `sync_integrity_free`, `sync_agent_info_free`
and `extra_valid_requested` exactly as they were at disconnection. -/
theorem C10_connection_lost (s : FullSession) :
    (connection_lost s).sync_integrity_free = s.sync_integrity_free ∧
    (connection_lost s).sync_agent_info_free = s.sync_agent_info_free ∧
    (connection_lost s).extra_valid_requested = s.extra_valid_requested ∧
    (connection_lost s).sync_tasks.map Prod.fst = s.sync_tasks.map Prod.fst ∧
    ((connection_lost s).sync_tasks.all fun p => p.2.cancelled) = true := by
  refine ⟨rfl, rfl, rfl, ?_, ?_⟩
  · simp [connection_lost, List.map_map, Function.comp]
  · simp [connection_lost, List.all_eq_true]

end Wazuh.Master
